import Mathlib

/-!
Verification of the onboarding task-tracking subsystem of the
huminity-connect HR application.

The definitions below are shallow embeddings of the source:
* `onboarding_checklist` rows and their status enumeration
  (migration `20250910102713…​.sql` plus the `ALTER TABLE` in the later
  template migration);
* the client-side mutation payloads `updateTaskMutation`
  (`EmployeeOnboardingDashboard.tsx`), `updateTaskStatus`
  (`useOnboarding.ts`), `verifyTaskMutation` (HR onboarding dashboard);
* the derived statistics `getTaskStats` / `calculateProgress`
  (`useOnboarding.ts`) and the dashboard's `progressPercentage` and
  `isOverdue` computations;
* the SQL function `create_onboarding_tasks_from_template`, the
  `create_onboarding_checklist` trigger, the row-level-security predicate
  on `onboarding_checklist`, and the `hasPermission` check of
  `usePermissions.ts` over the seeded `role_permissions` matrix.

Dates and timestamps are modelled as integers (days since an epoch for
SQL `DATE` values, an abstract instant for `now`); JavaScript string
truthiness (`if (x) …` is skipped for `undefined` and `""`) is modelled
by `strTruthy`.
-/

/-- The five task statuses of the `status` CHECK constraint on
`onboarding_checklist`. -/
inductive TaskStatus
  | pending
  | submitted
  | verified
  | completed
  | rejected
deriving DecidableEq, Repr

/-- The five task kinds of the `task_type` CHECK constraint. -/
inductive TaskType
  | document
  | policy
  | it_setup
  | training
  | general
deriving DecidableEq, Repr

/-- A row of `onboarding_checklist` (original columns of the
20250910 migration plus the columns added by the template migration).
The legacy `is_completed`/`completed_by`/`completed_at` columns and
`validation_result`/`progress_percentage` are omitted: no claim reads
them.  There is no `updated_at` column on this table. -/
structure OnboardingTask where
  id : Nat
  employee_id : Nat
  task_name : String
  task_description : String
  task_type : TaskType
  status : TaskStatus
  assigned_to : String
  due_date : Int
  priority : String
  document_url : Option String
  verified_by : Option Nat
  verified_at : Option Int
  rejection_reason : Option String
deriving DecidableEq, Repr

/-- JavaScript truthiness of an optional string: `undefined` and the
empty string are falsy, every other string is truthy. -/
def strTruthy : Option String → Bool
  | none => false
  | some s => s ≠ ""

/-- `updateTaskMutation`'s `mutationFn` in `EmployeeOnboardingDashboard.tsx`
(lines 97–112): `updateData = { status }`, then
`if (documentUrl) updateData.document_url = documentUrl`, applied to the
row.  No other column is touched and no from/to validation occurs. -/
def updateTaskMutation (task : OnboardingTask) (status : TaskStatus)
    (documentUrl : Option String) : OnboardingTask :=
  { task with
      status := status
      document_url := if strTruthy documentUrl then documentUrl else task.document_url }

/-- `updateTaskStatus`'s `mutationFn` in `useOnboarding.ts` (lines 343–377):
sets `status`, conditionally `document_url` and `rejection_reason` (JS
truthiness), and stamps `verified_at` when the new status is `verified`.
(The code also writes an `updated_at` key, but `onboarding_checklist`
has no such column, so it is not part of the row state.) -/
def updateTaskStatus (task : OnboardingTask) (status : TaskStatus)
    (documentUrl rejectionReason : Option String) (now : Int) : OnboardingTask :=
  { task with
      status := status
      document_url := if strTruthy documentUrl then documentUrl else task.document_url
      rejection_reason := if strTruthy rejectionReason then rejectionReason else task.rejection_reason
      verified_at := if status = TaskStatus.verified then some now else task.verified_at }

/-- `verifyTaskMutation`'s `mutationFn` in the HR onboarding dashboard
(lines 160–197): `updateData = { status, verified_at: now }`, then
`if (reason) updateData.rejection_reason = reason`. -/
def verifyTaskMutation (task : OnboardingTask) (status : TaskStatus)
    (reason : Option String) (now : Int) : OnboardingTask :=
  { task with
      status := status
      verified_at := some now
      rejection_reason := if strTruthy reason then reason else task.rejection_reason }

/-- The per-status/overdue counters returned by `getTaskStats` in
`useOnboarding.ts` (lines 440–460).  The JS object literal has exactly
these keys; a task with status `verified` increments none of them
(`stats['verified']++` writes a NaN to a key that is neither declared
nor ever read). -/
structure TaskStats where
  total : Nat
  pending : Nat
  submitted : Nat
  completed : Nat
  rejected : Nat
  overdue : Nat
deriving DecidableEq, Repr

/-- `getTaskStats` of `useOnboarding.ts`: one `forEach` pass that
increments the counter named by `task.status` (so `verified` tasks hit
none of the declared keys) and counts a task as overdue when its status
is `pending` or `rejected` and its due date is strictly in the past. -/
def getTaskStats (tasks : List OnboardingTask) (now : Int) : TaskStats :=
  { total := tasks.length
    pending := tasks.countP (fun t => decide (t.status = TaskStatus.pending))
    submitted := tasks.countP (fun t => decide (t.status = TaskStatus.submitted))
    completed := tasks.countP (fun t => decide (t.status = TaskStatus.completed))
    rejected := tasks.countP (fun t => decide (t.status = TaskStatus.rejected))
    overdue := tasks.countP (fun t =>
      decide ((t.status = TaskStatus.pending ∨ t.status = TaskStatus.rejected) ∧ t.due_date < now)) }

/-- The inline `isOverdue` flag of `EmployeeOnboardingDashboard.tsx`
(lines 323–324): `new Date(task.due_date) < new Date() &&
(task.status === 'pending' || task.status === 'rejected')`. -/
def isOverdue (task : OnboardingTask) (now : Int) : Bool :=
  decide (task.due_date < now) &&
    (decide (task.status = TaskStatus.pending) || decide (task.status = TaskStatus.rejected))

/-- The overdue predicate as the spec's §8 formula states it:
`overdue == (status ∉ {completed, verified}) AND (due_date < now)`.
Declared only to compare against the source-derived `isOverdue`. -/
def overdueSpec (task : OnboardingTask) (now : Int) : Bool :=
  decide (task.status ≠ TaskStatus.completed ∧ task.status ≠ TaskStatus.verified ∧
    task.due_date < now)

/-- Number of tasks the client counts as completed for progress purposes:
status `completed` or `verified` (`calculateProgress` in
`useOnboarding.ts`, `completedTasks` in `EmployeeOnboardingDashboard.tsx`). -/
def countCompleted (tasks : List OnboardingTask) : Nat :=
  tasks.countP (fun t =>
    decide (t.status = TaskStatus.completed ∨ t.status = TaskStatus.verified))

/-- `Math.round` on a non-negative rational: round half away from zero,
i.e. `⌊q + 1/2⌋` (JavaScript rounds half toward +∞). -/
def jsRound (q : ℚ) : ℤ := ⌊q + 1 / 2⌋

/-- `calculateProgress` of `useOnboarding.ts` (lines 429–437): `0` for an
empty task list, else `Math.round((completedTasks / length) * 100)`. -/
def calculateProgress (tasks : List OnboardingTask) : ℤ :=
  if tasks.length = 0 then 0
  else jsRound ((countCompleted tasks : ℚ) / (tasks.length : ℚ) * 100)

/-- `progressPercentage` of `EmployeeOnboardingDashboard.tsx`
(lines 90–94): `totalTasks > 0 ? Math.round((completed / total) * 100) : 0`. -/
def progressPercentage (tasks : List OnboardingTask) : ℤ :=
  if 0 < tasks.length
  then jsRound ((countCompleted tasks : ℚ) / (tasks.length : ℚ) * 100)
  else 0

/-- One entry of an `onboarding_templates.tasks` JSONB array: the six
fields each blueprint carries (`due_days` is the text field cast to
INTEGER by the SQL function). -/
structure Blueprint where
  task_name : String
  task_description : String
  task_type : TaskType
  assigned_to : String
  due_days : Int
  priority : String
deriving DecidableEq, Repr

/-- One loop iteration of `create_onboarding_tasks_from_template`: the
INSERT computes `due_date = CURRENT_DATE + INTERVAL '1 day' * due_days`
(the anchor is the date at apply time, not the hire date) with
`status = 'pending'` and the remaining inserted columns left at their
defaults. -/
def mkTaskFromBlueprint (empId : Nat) (currentDate : Int) (b : Blueprint) :
    OnboardingTask :=
  { id := 0
    employee_id := empId
    task_name := b.task_name
    task_description := b.task_description
    task_type := b.task_type
    status := TaskStatus.pending
    assigned_to := b.assigned_to
    due_date := currentDate + b.due_days
    priority := b.priority
    document_url := none
    verified_by := none
    verified_at := none
    rejection_reason := none }

/-- The rows the template loop inserts, in blueprint order. -/
def tasksFromTemplate (empId : Nat) (currentDate : Int)
    (bs : List Blueprint) : List OnboardingTask :=
  bs.map (mkTaskFromBlueprint empId currentDate)

/-- A database statement error; the only failure mode the claims exercise
is an INSERT violating a constraint. -/
inductive DbError
  | constraintViolation
deriving DecidableEq, Repr

/-- The FOR loop of `create_onboarding_tasks_from_template`: insert the
rows one by one into the store.  `ok` is the database's constraint check
for a row; a failing INSERT raises, aborting the function (it has no
EXCEPTION handler), so the loop's partial inserts are only visible in
the intermediate accumulator of the aborted transaction. -/
def insertTasksLoop (ok : OnboardingTask → Bool)
    (store : List OnboardingTask) : List OnboardingTask →
    Except DbError (List OnboardingTask)
  | [] => Except.ok store
  | t :: rest =>
    if ok t then insertTasksLoop ok (store ++ [t]) rest
    else Except.error DbError.constraintViolation

/-- `create_onboarding_tasks_from_template(p_employee_id, p_template_id)`
after template resolution: `template_tasks` is the resolved blueprint
list (`none` when no matching active template exists, in which case the
function does nothing). -/
def create_onboarding_tasks_from_template (ok : OnboardingTask → Bool)
    (store : List OnboardingTask) (empId : Nat) (currentDate : Int)
    (template_tasks : Option (List Blueprint)) :
    Except DbError (List OnboardingTask) :=
  match template_tasks with
  | none => Except.ok store
  | some bs => insertTasksLoop ok store (tasksFromTemplate empId currentDate bs)

/-- The RPC call as the database runs it: the function body executes in
one transaction, so an aborted run leaves the store exactly as it was
(PostgreSQL rolls back every statement of the failed transaction). -/
def runTemplateRpc (ok : OnboardingTask → Bool)
    (store : List OnboardingTask) (empId : Nat) (currentDate : Int)
    (template_tasks : Option (List Blueprint)) : List OnboardingTask :=
  match create_onboarding_tasks_from_template ok store empId currentDate template_tasks with
  | Except.ok newStore => newStore
  | Except.error _ => store

/-- An `employees` row, restricted to the columns the onboarding trigger
reads. -/
structure Employee where
  id : Nat
  hire_date : Int
deriving DecidableEq, Repr

/-- The body of `create_onboarding_checklist()` (migration
`20250910102713…`, lines 263–284): the five rows inserted for a new
employee, with due dates at hire date + 1 day, + 3 days, + 0, + 1 week,
+ 5 days.  Columns missing from the INSERT take their table defaults
(`status 'pending'`, `task_type 'general'`). -/
def create_onboarding_checklist (e : Employee) : List OnboardingTask :=
  [ { id := 0, employee_id := e.id, task_name := "IT Setup"
      task_description := "Create accounts and provide hardware"
      task_type := TaskType.general, status := TaskStatus.pending
      assigned_to := "IT Department", due_date := e.hire_date + 1
      priority := "high", document_url := none, verified_by := none
      verified_at := none, rejection_reason := none },
    { id := 0, employee_id := e.id, task_name := "HR Documentation"
      task_description := "Complete all HR forms and documentation"
      task_type := TaskType.general, status := TaskStatus.pending
      assigned_to := "HR Department", due_date := e.hire_date + 3
      priority := "high", document_url := none, verified_by := none
      verified_at := none, rejection_reason := none },
    { id := 0, employee_id := e.id, task_name := "Office Tour"
      task_description := "Introduce to team and office facilities"
      task_type := TaskType.general, status := TaskStatus.pending
      assigned_to := "Manager", due_date := e.hire_date
      priority := "medium", document_url := none, verified_by := none
      verified_at := none, rejection_reason := none },
    { id := 0, employee_id := e.id, task_name := "Training Schedule"
      task_description := "Assign relevant training modules"
      task_type := TaskType.general, status := TaskStatus.pending
      assigned_to := "HR Department", due_date := e.hire_date + 7
      priority := "medium", document_url := none, verified_by := none
      verified_at := none, rejection_reason := none },
    { id := 0, employee_id := e.id, task_name := "Payroll Setup"
      task_description := "Setup payroll and benefits"
      task_type := TaskType.general, status := TaskStatus.pending
      assigned_to := "Payroll Department", due_date := e.hire_date + 5
      priority := "high", document_url := none, verified_by := none
      verified_at := none, rejection_reason := none } ]

/-- Inserting an `employees` row: the AFTER INSERT trigger
`trigger_create_onboarding_checklist` appends the five default checklist
rows to the task store. -/
def insertEmployee (store : List OnboardingTask) (e : Employee) :
    List OnboardingTask :=
  store ++ create_onboarding_checklist e

/-- The application's roles (`app_role` enum). -/
inductive Role
  | admin
  | hr
  | manager
  | employee
deriving DecidableEq, Repr

/-- The USING predicate of the policy "Admins and HR can manage
onboarding tasks" (`FOR ALL` on `onboarding_checklist`): the caller's
profile role must be `admin` or `hr`.  No other policy grants UPDATE on
this table. -/
def canManageOnboardingTasks : Role → Bool
  | Role.admin => true
  | Role.hr => true
  | _ => false

/-- The error taxonomy of the mutation paths the claims exercise.
`Forbidden` is the spec's name for a row-level-security denial (§4.5
and the glossary abstract RLS as the Access Guard). -/
inductive OpError
  | Forbidden
deriving DecidableEq, Repr

/-- `updateTaskStatus` as executed against the database: the row is only
updated when the RLS predicate admits the caller's role; otherwise the
statement affects no row and the Access Guard reports `Forbidden`. -/
def guardedUpdateTaskStatus (actorRole : Role) (task : OnboardingTask)
    (status : TaskStatus) (documentUrl rejectionReason : Option String)
    (now : Int) : Except OpError OnboardingTask :=
  if canManageOnboardingTasks actorRole
  then Except.ok (updateTaskStatus task status documentUrl rejectionReason now)
  else Except.error OpError.Forbidden

/-- The persisted outcome of a guarded update: the updated row on
success, the unchanged row (plus the error) on denial. -/
def runGuardedUpdate (actorRole : Role) (task : OnboardingTask)
    (status : TaskStatus) (documentUrl rejectionReason : Option String)
    (now : Int) : OnboardingTask × Option OpError :=
  match guardedUpdateTaskStatus actorRole task status documentUrl rejectionReason now with
  | Except.ok updated => (updated, none)
  | Except.error e => (task, some e)

/-- A `role_permissions` row (UNIQUE(role, resource); four action flags). -/
structure RolePermission where
  role : Role
  resource : String
  can_create : Bool
  can_read : Bool
  can_update : Bool
  can_delete : Bool
deriving DecidableEq, Repr

/-- The flag a permission row holds for an action string: the `switch`
of `hasPermission` in `usePermissions.ts` (default branch: `false`),
matching the CASE of the SQL `user_has_permission` (ELSE `false`). -/
def actionFlag (p : RolePermission) (action : String) : Bool :=
  if action = "create" then p.can_create
  else if action = "read" then p.can_read
  else if action = "update" then p.can_update
  else if action = "delete" then p.can_delete
  else false

/-- The hook's fetch: `from('role_permissions').select('*').eq('role', role)`. -/
def fetchPermissions (matrix : List RolePermission) (r : Role) :
    List RolePermission :=
  matrix.filter (fun p => decide (p.role = r))

/-- `hasPermission` of `usePermissions.ts` (lines 40–51): find the row
for the resource in the fetched list; absent row means `false`. -/
def hasPermission (permissions : List RolePermission)
    (resource action : String) : Bool :=
  match permissions.find? (fun p => decide (p.resource = resource)) with
  | none => false
  | some p => actionFlag p action

/-- The whole Access Guard check for a role: fetch the role's rows, then
`hasPermission`. -/
def canPerform (matrix : List RolePermission) (r : Role)
    (resource action : String) : Bool :=
  hasPermission (fetchPermissions matrix r) resource action

/-- The 18 rows seeded into `role_permissions` by the enhancement
migration (INSERT at its lines 411–435). -/
def defaultRolePermissions : List RolePermission :=
  [ ⟨Role.admin, "users", true, true, true, true⟩,
    ⟨Role.admin, "roles", true, true, true, true⟩,
    ⟨Role.admin, "audit_logs", false, true, false, false⟩,
    ⟨Role.admin, "settings", true, true, true, true⟩,
    ⟨Role.admin, "employees", true, true, true, true⟩,
    ⟨Role.admin, "leave_requests", true, true, true, true⟩,
    ⟨Role.admin, "notifications", true, true, true, true⟩,
    ⟨Role.hr, "employees", true, true, true, false⟩,
    ⟨Role.hr, "leave_requests", false, true, true, false⟩,
    ⟨Role.hr, "notifications", true, true, true, false⟩,
    ⟨Role.hr, "users", false, true, true, false⟩,
    ⟨Role.manager, "employees", false, true, true, false⟩,
    ⟨Role.manager, "leave_requests", false, true, true, false⟩,
    ⟨Role.manager, "notifications", false, true, false, false⟩,
    ⟨Role.employee, "profile", false, true, true, false⟩,
    ⟨Role.employee, "leave_requests", true, true, true, false⟩,
    ⟨Role.employee, "notifications", false, true, true, false⟩ ]

/-- A concrete already-verified task, as a template-created document task
would look after HR approval. -/
def sampleVerifiedTask : OnboardingTask :=
  { id := 1, employee_id := 1, task_name := "Upload Identity Document"
    task_description := "Upload a valid government-issued ID"
    task_type := TaskType.document, status := TaskStatus.verified
    assigned_to := "Employee", due_date := 19735, priority := "high"
    document_url := some "uploads/id.pdf", verified_by := some 7
    verified_at := some 100, rejection_reason := none }

/-- A concrete task sitting in status `submitted` awaiting HR review. -/
def sampleSubmittedTask : OnboardingTask :=
  { id := 2, employee_id := 1, task_name := "Bank Account Information"
    task_description := "Provide bank account details for payroll setup"
    task_type := TaskType.document, status := TaskStatus.submitted
    assigned_to := "Employee", due_date := 19735, priority := "high"
    document_url := some "uploads/bank.pdf", verified_by := none
    verified_at := none, rejection_reason := none }

/-- A concrete task HR has rejected with a stored reason. -/
def sampleRejectedTask : OnboardingTask :=
  { id := 3, employee_id := 1, task_name := "Upload Identity Document"
    task_description := "Upload a valid government-issued ID"
    task_type := TaskType.document, status := TaskStatus.rejected
    assigned_to := "Employee", due_date := 19735, priority := "high"
    document_url := some "uploads/id.pdf", verified_by := none
    verified_at := some 90, rejection_reason := some "missing signature" }

/-- Claim C1 counterexample: the status-update mutation applied to a task
whose status is `verified` (a terminal status per the claim) succeeds and
changes the row — no `InvalidTransition` failure exists and the task does
not stay unchanged. -/
theorem verified_task_status_change_succeeds :
    sampleVerifiedTask.status = TaskStatus.verified ∧
    (updateTaskMutation sampleVerifiedTask TaskStatus.pending none).status =
      TaskStatus.pending ∧
    (updateTaskMutation sampleVerifiedTask TaskStatus.pending none).status ≠
      sampleVerifiedTask.status := by
  refine ⟨rfl, rfl, ?_⟩
  decide

/-- Claim C1 (amended): none of the three status-update paths validates
the from/to pair — each writes whatever target status is requested, for
every current status (terminal ones included), and never fails with
`InvalidTransition`. -/
theorem status_update_no_transition_validation
    (task : OnboardingTask) (status : TaskStatus)
    (documentUrl rejectionReason : Option String) (now : Int) :
    (updateTaskMutation task status documentUrl).status = status ∧
    (updateTaskStatus task status documentUrl rejectionReason now).status = status ∧
    (verifyTaskMutation task status rejectionReason now).status = status :=
  ⟨rfl, rfl, rfl⟩

/-- Claim C2 counterexample: re-submitting the rejected task (the
dashboard upload path sets `status = 'submitted'` plus the new document
URL, and the hook path likewise) leaves `rejection_reason` equal to
"missing signature" — it is not cleared. -/
theorem resubmission_keeps_rejection_reason :
    (updateTaskMutation sampleRejectedTask TaskStatus.submitted
      (some "uploads/new.pdf")).status = TaskStatus.submitted ∧
    (updateTaskMutation sampleRejectedTask TaskStatus.submitted
      (some "uploads/new.pdf")).rejection_reason = some "missing signature" ∧
    (updateTaskStatus sampleRejectedTask TaskStatus.submitted
      (some "uploads/new.pdf") none 19736).rejection_reason = some "missing signature" ∧
    (updateTaskMutation sampleRejectedTask TaskStatus.submitted
      (some "uploads/new.pdf")).rejection_reason ≠ none := by
  have h2 : (updateTaskMutation sampleRejectedTask TaskStatus.submitted
      (some "uploads/new.pdf")).rejection_reason = some "missing signature" := rfl
  exact ⟨rfl, h2, rfl, by rw [h2]; simp⟩

/-- Claim C2 (amended): rejecting a task with a non-empty reason sets its
status to `rejected` and stores the reason in `rejection_reason`, but a
subsequent re-submission (either update path) sets the status back to
`submitted` while leaving the stored `rejection_reason` unchanged rather
than clearing it. -/
theorem reject_stores_reason_resubmit_keeps_it
    (task : OnboardingTask) (reason : String) (now : Int)
    (documentUrl : Option String) (h : reason ≠ "") :
    (verifyTaskMutation task TaskStatus.rejected (some reason) now).status =
      TaskStatus.rejected ∧
    (verifyTaskMutation task TaskStatus.rejected (some reason) now).rejection_reason =
      some reason ∧
    (updateTaskMutation task TaskStatus.submitted documentUrl).rejection_reason =
      task.rejection_reason ∧
    (updateTaskStatus task TaskStatus.submitted documentUrl none now).rejection_reason =
      task.rejection_reason := by
  refine ⟨rfl, ?_, rfl, rfl⟩
  simp [verifyTaskMutation, strTruthy, h]

/-- Concrete instantiation of `reject_stores_reason_resubmit_keeps_it`
on the submitted sample task and the reason "missing signature". -/
theorem reject_stores_reason_witness :
    ("missing signature" : String) ≠ "" ∧
    (verifyTaskMutation sampleSubmittedTask TaskStatus.rejected
      (some "missing signature") 19736).rejection_reason = some "missing signature" :=
  ⟨by decide, (reject_stores_reason_resubmit_keeps_it sampleSubmittedTask
    "missing signature" 19736 none (by decide)).2.1⟩

/-- Claim C3 counterexample: a task in status `submitted` with a past due
date satisfies the spec's overdue formula, yet neither the dashboard's
`isOverdue` flag nor `getTaskStats` counts it as overdue. -/
theorem submitted_overdue_not_counted :
    sampleSubmittedTask.status = TaskStatus.submitted ∧
    sampleSubmittedTask.due_date < 19740 ∧
    overdueSpec sampleSubmittedTask 19740 = true ∧
    isOverdue sampleSubmittedTask 19740 = false ∧
    (getTaskStats [sampleSubmittedTask] 19740).overdue = 0 := by
  refine ⟨rfl, by decide, by decide, by decide, by decide⟩

/-- Claim C3 (amended): the derived overdue flag is true exactly when the
task's status is `pending` or `rejected` (not merely non-terminal) and
its due date is strictly before the current time; it is recomputed at
read time, and `getTaskStats` counts exactly the tasks whose recomputed
flag is set. -/
theorem overdue_iff_pending_or_rejected_past_due
    (tasks : List OnboardingTask) (task : OnboardingTask) (now : Int) :
    (isOverdue task now = true ↔
      ((task.status = TaskStatus.pending ∨ task.status = TaskStatus.rejected) ∧
        task.due_date < now)) ∧
    (getTaskStats tasks now).overdue = tasks.countP (fun t => isOverdue t now) := by
  constructor
  · simp only [isOverdue, Bool.and_eq_true, Bool.or_eq_true, decide_eq_true_eq]
    tauto
  · simp only [getTaskStats]
    refine List.countP_congr ?_
    intro t _
    by_cases hp : t.status = TaskStatus.pending <;>
      by_cases hr : t.status = TaskStatus.rejected <;>
        by_cases hd : t.due_date < now <;>
          simp [isOverdue, hp, hr, hd]

/-- Claim C4 counterexample: for a single task in status `verified`, the
four counters of `getTaskStats` sum to 0 while `total` is 1 — the sum
identity of the claim fails as soon as a `verified` task exists, because
the `forEach` increments a key named `verified` that is not one of the
returned counters. -/
theorem verified_task_breaks_stats_sum :
    (getTaskStats [sampleVerifiedTask] 0).completed +
      (getTaskStats [sampleVerifiedTask] 0).pending +
      (getTaskStats [sampleVerifiedTask] 0).submitted +
      (getTaskStats [sampleVerifiedTask] 0).rejected = 0 ∧
    (getTaskStats [sampleVerifiedTask] 0).total = 1 ∧
    (getTaskStats [sampleVerifiedTask] 0).completed +
      (getTaskStats [sampleVerifiedTask] 0).pending +
      (getTaskStats [sampleVerifiedTask] 0).submitted +
      (getTaskStats [sampleVerifiedTask] 0).rejected ≠
      (getTaskStats [sampleVerifiedTask] 0).total := by
  refine ⟨by decide, by decide, by decide⟩

/-- Claim C4 (amended): `completed` counts only status `completed` (not
`verified`), and the four counters sum to `total` minus the number of
`verified` tasks: completed + pending + submitted + rejected + #verified
= total for every task list. -/
theorem stats_sum_counts_verified_separately
    (tasks : List OnboardingTask) (now : Int) :
    (getTaskStats tasks now).completed + (getTaskStats tasks now).pending +
      (getTaskStats tasks now).submitted + (getTaskStats tasks now).rejected +
      tasks.countP (fun t => decide (t.status = TaskStatus.verified)) =
    (getTaskStats tasks now).total := by
  simp only [getTaskStats]
  induction tasks with
  | nil => simp
  | cons t ts ih =>
    simp only [List.countP_cons, List.length_cons]
    cases h : t.status <;> simp [h] <;> omega

/-- Claim C5: the progress percentage is 0 for an empty task list and
`round(100 * completed / total)` otherwise, where `completed` counts
statuses `completed`/`verified` and never exceeds `total`; the
dashboard's computation agrees with the hook's, and the `total = 0`
guard means no division by zero ever occurs. -/
theorem progress_percent_spec (tasks : List OnboardingTask) :
    calculateProgress tasks =
      (if tasks.length = 0 then 0
       else jsRound (100 * (countCompleted tasks : ℚ) / (tasks.length : ℚ))) ∧
    progressPercentage tasks = calculateProgress tasks ∧
    countCompleted tasks ≤ tasks.length := by
  refine ⟨?_, ?_, List.countP_le_length _⟩
  · unfold calculateProgress
    rcases Nat.eq_zero_or_pos tasks.length with h | h
    · simp [h]
    · have hne : tasks.length ≠ 0 := by omega
      simp only [hne, if_false]
      congr 1
      ring
  · unfold progressPercentage calculateProgress
    rcases Nat.eq_zero_or_pos tasks.length with h | h
    · simp [h]
    · have hne : tasks.length ≠ 0 := by omega
      simp [hne, h]

/-- The single blueprint of the C6 scenario: `{offset_days: 3}`. -/
def sampleBlueprint : Blueprint :=
  { task_name := "Upload Identity Document"
    task_description := "Upload a valid government-issued ID"
    task_type := TaskType.document, assigned_to := "Employee"
    due_days := 3, priority := "high" }

/-- Claim C6 counterexample: with dates as days since 1970-01-01
(2024-01-10 = 19732, 2024-01-13 = 19735, 2024-01-20 = 19742), applying
the one-blueprint template on 2024-01-20 for an employee hired
2024-01-10 yields a task due on day 19745 (2024-01-23), not
2024-01-13 = hire date + 3: the SQL function anchors at `CURRENT_DATE`,
not at the hire date. -/
theorem template_due_date_not_hire_anchored :
    (tasksFromTemplate 1 19742 [sampleBlueprint]).map (fun t => t.due_date) =
      [19745] ∧
    (19745 : Int) ≠ 19732 + 3 := by
  exact ⟨rfl, by decide⟩

/-- Claim C6 (amended): for every blueprint of an applied template, the
created task's due date is the current date at apply time plus the
blueprint's `due_days` offset; this equals hire date + offset (and gives
2024-01-13 in the scenario) only when the template is applied on the
hire date itself. -/
theorem template_due_dates_apply_date_anchored
    (empId : Nat) (applyDate : Int) (bs : List Blueprint) :
    (tasksFromTemplate empId applyDate bs).map (fun t => t.due_date) =
      bs.map (fun b => applyDate + b.due_days) := by
  unfold tasksFromTemplate
  simp [List.map_map, Function.comp, mkTaskFromBlueprint]

/-- If every row passes its constraint check, the insert loop appends
exactly the given rows in order. -/
theorem insertTasksLoop_all_ok (ok : OnboardingTask → Bool) :
    ∀ (ts store : List OnboardingTask),
      (∀ t ∈ ts, ok t = true) →
      insertTasksLoop ok store ts = Except.ok (store ++ ts) := by
  intro ts
  induction ts with
  | nil => intro store _; simp [insertTasksLoop]
  | cons t rest ih =>
    intro store h
    have ht : ok t = true := h t (by simp)
    simp only [insertTasksLoop, ht, if_true]
    rw [ih (store ++ [t]) (fun x hx => h x (by simp [hx]))]
    simp

/-- If some row fails its constraint check, the insert loop aborts with
the constraint violation, whatever the accumulated store. -/
theorem insertTasksLoop_err (ok : OnboardingTask → Bool) :
    ∀ (ts store : List OnboardingTask),
      (∃ t ∈ ts, ok t = false) →
      insertTasksLoop ok store ts = Except.error DbError.constraintViolation := by
  intro ts
  induction ts with
  | nil => intro store h; simp at h
  | cons t rest ih =>
    intro store h
    by_cases ht : ok t = true
    · simp only [insertTasksLoop, ht, if_true]
      apply ih
      rcases h with ⟨x, hx, hxf⟩
      rcases List.mem_cons.mp hx with rfl | hx'
      · rw [ht] at hxf; cases hxf
      · exact ⟨x, hx', hxf⟩
    · have hf : ok t = false := by simpa using ht
      simp [insertTasksLoop, hf]

/-- Unfolding equation: applying a resolved template runs the insert
loop on the blueprint rows. -/
theorem create_tasks_some (ok : OnboardingTask → Bool)
    (store : List OnboardingTask) (empId : Nat) (currentDate : Int)
    (bs : List Blueprint) :
    create_onboarding_tasks_from_template ok store empId currentDate (some bs) =
      insertTasksLoop ok store (tasksFromTemplate empId currentDate bs) := rfl

/-- Claim C7: template application is atomic — if any of the template's
rows fails its constraint check, the transaction rolls back and the
store holds no task from that application; if all succeed, the store
gains exactly one task per blueprint. -/
theorem template_application_atomic
    (ok : OnboardingTask → Bool) (store : List OnboardingTask)
    (empId : Nat) (currentDate : Int) (bs : List Blueprint) :
    ((∃ t ∈ tasksFromTemplate empId currentDate bs, ok t = false) →
      runTemplateRpc ok store empId currentDate (some bs) = store) ∧
    ((∀ t ∈ tasksFromTemplate empId currentDate bs, ok t = true) →
      runTemplateRpc ok store empId currentDate (some bs) =
        store ++ tasksFromTemplate empId currentDate bs) := by
  constructor
  · intro h
    unfold runTemplateRpc
    rw [create_tasks_some, insertTasksLoop_err ok _ store h]
  · intro h
    unfold runTemplateRpc
    rw [create_tasks_some, insertTasksLoop_all_ok ok _ store h]

/-- The five blueprints of the default template (first five entries of
the seeded "Default Onboarding" JSONB array). -/
def sampleTemplateBlueprints : List Blueprint :=
  [ ⟨"Upload Identity Document",
      "Upload a valid government-issued ID", TaskType.document,
      "Employee", 3, "high"⟩,
    ⟨"Bank Account Information",
      "Provide bank account details for payroll setup", TaskType.document,
      "Employee", 5, "high"⟩,
    ⟨"Employment Contract Acknowledgment",
      "Review and acknowledge employment contract terms", TaskType.policy,
      "Employee", 2, "high"⟩,
    ⟨"IT Equipment Setup",
      "Set up laptop, email, and system access", TaskType.it_setup,
      "IT Department", 1, "high"⟩,
    ⟨"Company Orientation Training",
      "Complete mandatory company orientation and training modules",
      TaskType.training, "Employee", 7, "medium"⟩ ]

/-- A constraint check under which the 3rd of the 5 sample inserts
(the contract acknowledgment row) violates a constraint. -/
def rejectContractInsert : OnboardingTask → Bool := fun t =>
  decide (t.task_name ≠ "Employment Contract Acknowledgment")

/-- Concrete instantiation of `template_application_atomic`: with the 3rd
of 5 inserts failing, applying the template to an empty store leaves 0
new tasks persisted. -/
theorem template_application_atomic_witness :
    (∃ t ∈ tasksFromTemplate 1 19742 sampleTemplateBlueprints,
      rejectContractInsert t = false) ∧
    runTemplateRpc rejectContractInsert [] 1 19742
      (some sampleTemplateBlueprints) = [] :=
  ⟨by decide, (template_application_atomic rejectContractInsert [] 1 19742
    sampleTemplateBlueprints).1 (by decide)⟩

/-- Claim C8: a status change attempted by a caller whose role the
row-level-security predicate on `onboarding_checklist` does not admit
fails with `Forbidden` and leaves the row — in particular its status —
unchanged, for every requested target status (legal or not). -/
theorem non_hr_admin_update_forbidden
    (r : Role) (task : OnboardingTask) (status : TaskStatus)
    (documentUrl rejectionReason : Option String) (now : Int)
    (h : canManageOnboardingTasks r = false) :
    guardedUpdateTaskStatus r task status documentUrl rejectionReason now =
      Except.error OpError.Forbidden ∧
    (runGuardedUpdate r task status documentUrl rejectionReason now).1 = task ∧
    (runGuardedUpdate r task status documentUrl rejectionReason now).1.status =
      task.status ∧
    (runGuardedUpdate r task status documentUrl rejectionReason now).2 =
      some OpError.Forbidden := by
  have hg : guardedUpdateTaskStatus r task status documentUrl rejectionReason now =
      Except.error OpError.Forbidden := by
    unfold guardedUpdateTaskStatus
    rw [h]
    simp
  refine ⟨hg, ?_, ?_, ?_⟩ <;> unfold runGuardedUpdate <;> rw [hg]

/-- Concrete instantiation of `non_hr_admin_update_forbidden`: a
`manager` role actor attempting `submitted → verified` gets `Forbidden`
and the task keeps status `submitted`. -/
theorem manager_verify_forbidden_witness :
    canManageOnboardingTasks Role.manager = false ∧
    guardedUpdateTaskStatus Role.manager sampleSubmittedTask TaskStatus.verified
      none none 19736 = Except.error OpError.Forbidden ∧
    (runGuardedUpdate Role.manager sampleSubmittedTask TaskStatus.verified
      none none 19736).1.status = TaskStatus.submitted :=
  ⟨rfl,
    (non_hr_admin_update_forbidden Role.manager sampleSubmittedTask
      TaskStatus.verified none none 19736 rfl).1,
    (non_hr_admin_update_forbidden Role.manager sampleSubmittedTask
      TaskStatus.verified none none 19736 rfl).2.2.1⟩

/-- Claim C9: the permission check is a whitelist — it returns `false`
whenever the matrix has no row for the caller's role and the requested
resource, and for every action string outside create/read/update/delete;
it returns `true` only when a matching row exists whose flag for the
action is set. -/
theorem permission_matrix_whitelist
    (matrix : List RolePermission) (r : Role) (resource action : String) :
    ((∀ p ∈ matrix, ¬(p.role = r ∧ p.resource = resource)) →
      canPerform matrix r resource action = false) ∧
    (action ∉ (["create", "read", "update", "delete"] : List String) →
      canPerform matrix r resource action = false) ∧
    (canPerform matrix r resource action = true →
      ∃ p ∈ matrix, p.role = r ∧ p.resource = resource ∧
        actionFlag p action = true) := by
  refine ⟨?_, ?_, ?_⟩
  · intro h
    have hnone : (fetchPermissions matrix r).find?
        (fun p => decide (p.resource = resource)) = none := by
      rw [List.find?_eq_none]
      intro p hp
      have hmem := List.mem_filter.mp hp
      have hrole : p.role = r := by simpa using hmem.2
      simp only [decide_eq_true_eq]
      exact fun hres => h p hmem.1 ⟨hrole, hres⟩
    simp [canPerform, hasPermission, hnone]
  · intro h
    simp only [List.mem_cons, not_or] at h
    obtain ⟨h1, h2, h3, h4, _⟩ := h
    unfold canPerform hasPermission
    cases hfind : (fetchPermissions matrix r).find?
        (fun p => decide (p.resource = resource)) with
    | none => rfl
    | some p => simp [actionFlag, h1, h2, h3, h4]
  · intro h
    unfold canPerform hasPermission at h
    cases hfind : (fetchPermissions matrix r).find?
        (fun p => decide (p.resource = resource)) with
    | none => rw [hfind] at h; cases h
    | some p =>
      rw [hfind] at h
      have hmem := List.mem_filter.mp (List.mem_of_find?_eq_some hfind)
      have hres : p.resource = resource := by
        have := List.find?_some hfind
        simpa using this
      exact ⟨p, hmem.1, by simpa using hmem.2, hres, h⟩

/-- Concrete instantiation of `permission_matrix_whitelist` on the seeded
matrix: the pair {manager, settings} has no row, so the check denies. -/
theorem permission_matrix_whitelist_witness :
    (∀ p ∈ defaultRolePermissions,
      ¬(p.role = Role.manager ∧ p.resource = "settings")) ∧
    canPerform defaultRolePermissions Role.manager "settings" "read" = false :=
  ⟨by decide,
    (permission_matrix_whitelist defaultRolePermissions Role.manager
      "settings" "read").1 (by decide)⟩

/-- Claim C10: inserting an `employees` row fires the trigger, which
creates exactly five checklist tasks named "IT Setup",
"HR Documentation", "Office Tour", "Training Schedule", "Payroll Setup"
due at hire date + 1 day, + 3 days, + 0 days, + 1 week, + 5 days;
the five rows are appended to the store independently of any later
template application, which can only add further rows after them. -/
theorem employee_trigger_creates_five_tasks
    (e : Employee) (store : List OnboardingTask)
    (ok : OnboardingTask → Bool) (empId : Nat) (currentDate : Int)
    (template_tasks : Option (List Blueprint)) :
    (create_onboarding_checklist e).length = 5 ∧
    (create_onboarding_checklist e).map (fun t => t.task_name) =
      ["IT Setup", "HR Documentation", "Office Tour",
        "Training Schedule", "Payroll Setup"] ∧
    (create_onboarding_checklist e).map (fun t => t.due_date) =
      [e.hire_date + 1, e.hire_date + 3, e.hire_date,
        e.hire_date + 7, e.hire_date + 5] ∧
    insertEmployee store e = store ++ create_onboarding_checklist e ∧
    ∃ rest, runTemplateRpc ok (insertEmployee store e) empId currentDate
      template_tasks = insertEmployee store e ++ rest := by
  refine ⟨rfl, rfl, rfl, rfl, ?_⟩
  cases template_tasks with
  | none => exact ⟨[], by simp [runTemplateRpc, create_onboarding_tasks_from_template]⟩
  | some bs =>
    by_cases hall : ∀ t ∈ tasksFromTemplate empId currentDate bs, ok t = true
    · refine ⟨tasksFromTemplate empId currentDate bs, ?_⟩
      unfold runTemplateRpc
      rw [create_tasks_some, insertTasksLoop_all_ok ok _ _ hall]
    · have hex : ∃ t ∈ tasksFromTemplate empId currentDate bs, ok t = false := by
        push_neg at hall
        rcases hall with ⟨t, ht, hf⟩
        exact ⟨t, ht, by simpa using hf⟩
      refine ⟨[], ?_⟩
      unfold runTemplateRpc
      rw [create_tasks_some, insertTasksLoop_err ok _ _ hex]
      simp
